import Mathlib

/-!
Shallow embedding of the now-playing LCD renderer (src/renderer.js) of the
streamdeck-nowplaying plugin.  Strings are modelled as `List Char`; JS numbers
appearing in progress arithmetic as `ℚ` (with `Option` for `undefined`, whose
arithmetic yields NaN); the external raster library (sharp) as an oracle
record of possibly-failing operations, since its internals are outside the
repository.  Fallible JS code is modelled with `Except`.
-/

set_option maxRecDepth 4000

/-- Characters written via code points to keep literals simple. -/
def squote : Char := Char.ofNat 39

/-- JS Math.round: round half towards positive infinity. -/
def jsRound (q : ℚ) : ℤ := ⌊q + 1/2⌋

/-- Conversion of an integer to the character list of its decimal notation,
modelling JS template-literal interpolation of a number. -/
def ts (n : ℤ) : List Char := (toString n).data

namespace NowPlayingRenderer

/-- Constructor constant: full width for both positions combined. -/
def fullWidth : ℤ := 400

/-- Constructor constant: single dial position width. -/
def dialWidth : ℤ := 200

/-- Constructor constant: LCD height. -/
def lcdHeight : ℤ := 100

/-- Constructor constant: album art square size. -/
def artworkSize : ℤ := 100

/-- Constructor constant: padding. -/
def padding : ℤ := 8

end NowPlayingRenderer

/-! ## escapeXml (renderer.js lines 316-324)

JS `String.prototype.replace` with a global single-character pattern and a
replacement containing no special tokens replaces every occurrence of that
character, i.e. it is the flat map that expands that character and keeps all
others. -/

/-- Model of `s.replace(/pat/g, rep)` for a single-character pattern. -/
def replaceAllChar (pat : Char) (rep : List Char) (s : List Char) : List Char :=
  s.flatMap (fun c => if c = pat then rep else [c])

/-- Model of function escapeXml (renderer.js lines 316-324): guard on falsy
input, then the five sequential global replacements, ampersand first. -/
def escapeXml (s : List Char) : List Char :=
  if s = [] then []
  else
    replaceAllChar squote "&#39;".data
      (replaceAllChar '"' "&quot;".data
        (replaceAllChar '>' "&gt;".data
          (replaceAllChar '<' "&lt;".data
            (replaceAllChar '&' "&amp;".data s))))

/-- Per-character escaping table; the sequential replacements of escapeXml
agree with flat-mapping this table because the ampersand pass runs first. -/
def escapeChar (c : Char) : List Char :=
  if c = '&' then "&amp;".data
  else if c = '<' then "&lt;".data
  else if c = '>' then "&gt;".data
  else if c = '"' then "&quot;".data
  else if c = squote then "&#39;".data
  else [c]

/-- Checker for well-escaped markup text: no raw angle bracket, double quote
or apostrophe anywhere, and every ampersand begins one of the five entities
emitted by escapeChar. -/
def checkEscaped (l : List Char) : Bool :=
  match l with
  | [] => true
  | c :: cs =>
    if c = '<' || c = '>' || c = '"' || c = squote then false
    else if c = '&' then
      if "amp;".data.isPrefixOf cs then checkEscaped (cs.drop 4)
      else if "lt;".data.isPrefixOf cs then checkEscaped (cs.drop 3)
      else if "gt;".data.isPrefixOf cs then checkEscaped (cs.drop 3)
      else if "quot;".data.isPrefixOf cs then checkEscaped (cs.drop 5)
      else if "#39;".data.isPrefixOf cs then checkEscaped (cs.drop 4)
      else false
    else checkEscaped cs
termination_by l.length
decreasing_by
  all_goals simp [List.length_drop]
  all_goals omega

/-! ## Text layout (renderer.js lines 171-199) -/

/-- The JS value found in trackInfo.artist: an array of strings, a plain
string, or undefined. -/
inductive ArtistField : Type where
  | arr (l : List (List Char))
  | str (s : List Char)
  | undef
deriving DecidableEq

/-- Model of line 172: trackInfo.trackName or the default, where the JS or
treats undefined and the empty string as falsy. -/
def titleText (trackName : Option (List Char)) : List Char :=
  match trackName with
  | none => "Unknown Track".data
  | some s => if s = [] then "Unknown Track".data else s

/-- Model of lines 173-175: an array joins with comma-space (even when
empty); otherwise the falsy-or supplies the default. -/
def artistText (artist : ArtistField) : List Char :=
  match artist with
  | .arr l => List.intercalate ", ".data l
  | .str s => if s = [] then "Unknown Artist".data else s
  | .undef => "Unknown Artist".data

/-- Model of the local truncate closure (lines 183-185): JS substring clamps
a negative end index to zero, matching Nat subtraction. -/
def truncate (text : List Char) (maxChars : Nat := 45) : List Char :=
  if maxChars < text.length then text.take (maxChars - 3) ++ "...".data else text

/-- Track snapshot as consumed by the renderer. -/
structure TrackInfo : Type where
  trackName : Option (List Char)
  artist : ArtistField
  album : Option (List Char)
  thumbnail : Option (List Char)
  duration : Option ℚ
  position : Option ℚ

namespace NowPlayingRenderer

/-- Fixed markup before the title slot in buildTextSvg (lines 187-193). -/
def textSvgHead : List Char :=
  ("\n    <svg width=\"280\" height=\"100\" xmlns=\"http://www.w3.org/2000/svg\">\n"
    ++ "      <style>\n"
    ++ "        .title \x7b font-family: Arial, sans-serif; font-size: 20px; font-weight: normal; fill: white; \x7d\n"
    ++ "        .artist \x7b font-family: Arial, sans-serif; font-size: 16px; fill: #B3B3B3; \x7d\n"
    ++ "      </style>\n"
    ++ "      <text x=\"0\" y=\"27\" class=\"title\">").data

/-- Fixed markup between the title and artist slots (lines 193-194). -/
def textSvgMid : List Char :=
  "</text>\n      <text x=\"0\" y=\"55\" class=\"artist\">".data

/-- Fixed markup after the artist slot (lines 194-196). -/
def textSvgTail : List Char :=
  "</text>\n    </svg>\n    ".data

/-- Model of NowPlayingRenderer.buildTextSvg (lines 171-199).  The maxWidth
parameter is accepted but unused, as in the source (the svg width is a fixed
280).  The album lookup on line 176 is dead: album never reaches the markup. -/
def buildTextSvg (trackInfo : TrackInfo) (_maxWidth : ℤ) : List Char :=
  textSvgHead
    ++ escapeXml (truncate (titleText trackInfo.trackName) 28)
    ++ textSvgMid
    ++ escapeXml (truncate (artistText trackInfo.artist) 32)
    ++ textSvgTail

end NowPlayingRenderer

/-! ## extractBase64FromDataUrl (renderer.js lines 24-34) -/

/-- Model of JS String.prototype.split on a comma: the empty string splits to
one empty segment, and every comma opens a new segment. -/
def splitOnComma (s : List Char) : List (List Char) :=
  match s with
  | [] => [[]]
  | c :: rest =>
    if c = ',' then [] :: splitOnComma rest
    else
      match splitOnComma rest with
      | [] => [[c]]
      | h :: t => (c :: h) :: t

/-- Outcome of extractBase64FromDataUrl: the JS null, a buffer decoded from
the given base64 text, or a thrown TypeError (Buffer.from(undefined)). -/
inductive ExtractResult : Type where
  | nullRes
  | decoded (payload : List Char)
  | thrown
deriving DecidableEq

/-- Model of NowPlayingRenderer.extractBase64FromDataUrl (lines 24-34).
A falsy argument (undefined or the empty string) yields null; an argument
starting with the marker splits on every comma and feeds index 1 to the
base64 decoder, throwing when that index is out of range (a single segment,
i.e. no comma at all); any other argument is decoded whole. -/
def extractBase64FromDataUrl (dataUrl : Option (List Char)) : ExtractResult :=
  match dataUrl with
  | none => .nullRes
  | some s =>
    if s = [] then .nullRes
    else if "data:".data.isPrefixOf s then
      match (splitOnComma s)[1]? with
      | some seg => .decoded seg
      | none => .thrown
    else .decoded s

/-! ## createProgressBar (renderer.js lines 39-65) -/

namespace NowPlayingRenderer

/-- Constant barHeight of createProgressBar. -/
def barHeight : ℤ := 5

/-- Constant corner radius of createProgressBar. -/
def radius : ℤ := 1

/-- Background track rect element exactly as interpolated on lines 49 and 59
(identical text in both branches). -/
def bgRect (barWidth barX barY : ℤ) : List Char :=
  "<rect x=\"".data ++ ts barX ++ "\" y=\"".data ++ ts barY
    ++ "\" width=\"".data ++ ts barWidth ++ "\" height=\"".data ++ ts barHeight
    ++ "\" rx=\"".data ++ ts radius ++ "\" fill=\"#404040\"/>".data

/-- Fill rect element as interpolated on line 60. -/
def fillRect (progressWidth barX barY : ℤ) : List Char :=
  "<rect x=\"".data ++ ts barX ++ "\" y=\"".data ++ ts barY
    ++ "\" width=\"".data ++ ts progressWidth ++ "\" height=\"".data ++ ts barHeight
    ++ "\" rx=\"".data ++ ts radius ++ "\" fill=\"#1DB954\"/>".data

/-- Model of the JS falsy test on line 45 for the duration value:
undefined or zero (the NaN duration is folded into the absent case). -/
def jsFalsy (duration : Option ℚ) : Prop := duration = none ∨ duration = some 0

instance (d : Option ℚ) : Decidable (jsFalsy d) := by
  unfold jsFalsy; infer_instance

/-- Progress width of line 55 for definite numbers:
Math.round((currentTime / duration) * barWidth). -/
def progressWidthVal (duration currentTime : ℚ) (barWidth : ℤ) : ℤ :=
  jsRound (currentTime / duration * (barWidth : ℚ))

/-- Progress width with undefined propagation: an absent operand makes the
JS arithmetic produce NaN (modelled as none), and NaN > 0 is false. -/
def progressWidthOf (duration currentTime : Option ℚ) (barWidth : ℤ) : Option ℤ :=
  match duration, currentTime with
  | some d, some t => some (progressWidthVal d t barWidth)
  | _, _ => none

/-- The no-progress svg of lines 47-51, whitespace faithful. -/
def onlyTrackSvg (barWidth barX barY : ℤ) : List Char :=
  "\n        <svg width=\"400\" height=\"100\" xmlns=\"http://www.w3.org/2000/svg\">\n          ".data
    ++ bgRect barWidth barX barY
    ++ "\n        </svg>\n      ".data

/-- The conditional fill slot of line 60: the fill rect when the computed
width is a number greater than zero, the empty string otherwise. -/
def fillSlot (progressWidth : Option ℤ) (barX barY : ℤ) : List Char :=
  match progressWidth with
  | some w => if 0 < w then fillRect w barX barY else []
  | none => []

/-- The with-progress svg of lines 57-62, whitespace faithful. -/
def withFillSvg (progressWidth : Option ℤ) (barWidth barX barY : ℤ) : List Char :=
  "\n      <svg width=\"400\" height=\"100\" xmlns=\"http://www.w3.org/2000/svg\">\n        ".data
    ++ bgRect barWidth barX barY
    ++ "\n        ".data
    ++ fillSlot progressWidth barX barY
    ++ "\n      </svg>\n    ".data

/-- Model of NowPlayingRenderer.createProgressBar (lines 39-65): the svg
buffer text returned to the compositor. -/
def createProgressBar (duration currentTime : Option ℚ) (barWidth barX barY : ℤ) :
    List Char :=
  if jsFalsy duration then onlyTrackSvg barWidth barX barY
  else withFillSvg (progressWidthOf duration currentTime barWidth) barWidth barX barY

end NowPlayingRenderer

/-! ## The sharp oracle and the render pipeline (renderer.js lines 72-311)

The raster library is external to the repository; it is modelled as a record
of possibly-failing operations.  Each operation stands for one sharp chain
used by the source: resizeArt for sharp(buf).resize(100,100,cover).png(),
compositePng for sharp(create).composite(layers).png(), extractPng for
sharp(img).extract(rect).png(), svgPng for sharp(svgBuffer).png(), and
toBase64 for buffer.toString(base64). -/

/-- One entry of the composite array: an already-resized art image or an svg
buffer. -/
inductive LayerInput (Img : Type) : Type where
  | art (img : Img)
  | buf (b : List Char)

/-- One composite entry with its placement. -/
structure Layer (Img : Type) : Type where
  input : LayerInput Img
  left : ℤ
  top : ℤ

/-- The sharp oracle. -/
structure SharpOps (Img : Type) : Type where
  resizeArt : List Char → Except (List Char) Img
  compositePng : ℤ → ℤ → List (Layer Img) → Except (List Char) Img
  extractPng : Img → ℤ → ℤ → ℤ → ℤ → Except (List Char) Img
  svgPng : List Char → Except (List Char) Img
  toBase64 : Img → List Char

namespace NowPlayingRenderer

/-- The data-URL marker prepended to every encoded result. -/
def dataUrlHead : List Char := "data:image/png;base64,".data

/-- Model of the album-art block of render (lines 77-100): the truthiness
guard on thumbnail, extraction, the artBuffer null check, the resize, and
the inner catch that swallows both an extraction TypeError and a resize
failure, contributing no layer in every failure case. -/
def artLayers {Img : Type} (ops : SharpOps Img) (thumbnail : Option (List Char)) :
    List (Layer Img) :=
  match thumbnail with
  | none => []
  | some s =>
    if s = [] then []
    else
      match extractBase64FromDataUrl (some s) with
      | .nullRes => []
      | .thrown => []
      | .decoded buf =>
        match ops.resizeArt buf with
        | .error _ => []
        | .ok img => [⟨.art img, 0, 0⟩]

/-- textX of line 103. -/
def textX : ℤ := 100 + padding

/-- textAreaWidth of line 104. -/
def textAreaWidth : ℤ := fullWidth - textX - padding

/-- barY of line 118. -/
def barY : ℤ := 75

/-- barWidth of line 119. -/
def barWidth : ℤ := textAreaWidth - padding

/-- The text layer pushed on lines 107-114. -/
def textLayer {Img : Type} (t : TrackInfo) : Layer Img :=
  ⟨.buf (buildTextSvg t textAreaWidth), textX, 0⟩

/-- The progress-bar layer pushed on lines 116-132 (full-canvas svg placed
at the origin). -/
def barLayer {Img : Type} (t : TrackInfo) : Layer Img :=
  ⟨.buf (createProgressBar t.duration t.position barWidth textX barY), 0, 0⟩

/-- The composite array built by render before the canvas is created. -/
def renderLayers {Img : Type} (ops : SharpOps Img) (t : TrackInfo) : List (Layer Img) :=
  artLayers ops t.thumbnail ++ [textLayer t, barLayer t]

/-- The crop origin of lines 147-148: zero for the exact string left,
dialWidth for every other value. -/
def cropX (position : List Char) : ℤ :=
  if position = "left".data then 0 else dialWidth

/-- The body of the outer try of render (lines 74-160): composite the full
canvas, crop the requested half, and wrap the result as a data URL. -/
def renderPipeline {Img : Type} (ops : SharpOps Img) (t : TrackInfo)
    (position : List Char) : Except (List Char) (List Char) := do
  let fullCanvas ← ops.compositePng fullWidth lcdHeight (renderLayers ops t)
  let croppedImage ← ops.extractPng fullCanvas (cropX position) 0 dialWidth lcdHeight
  pure (dataUrlHead ++ ops.toBase64 croppedImage)

/-- The fallback svg of lines 207-214 (the left glyph is the mojibake
character sequence present in the source file). -/
def fallbackSvg (position : List Char) : List Char :=
  let message := if position = "left".data then "â™ª".data else "No Track".data
  "\n    <svg width=\"200\" height=\"100\" xmlns=\"http://www.w3.org/2000/svg\">\n      <rect width=\"200\" height=\"100\" fill=\"black\"/>\n      <text x=\"100\" y=\"55\" font-family=\"Arial\" font-size=\"".data
    ++ (if position = "left".data then "40".data else "14".data)
    ++ "\" fill=\"#666666\" text-anchor=\"middle\">\n        ".data
    ++ message
    ++ "\n      </text>\n    </svg>\n    ".data

/-- Model of NowPlayingRenderer.createFallback (lines 205-219): a single
unguarded svg encode; a raster failure here propagates to the caller. -/
def createFallback {Img : Type} (ops : SharpOps Img)
    (position : List Char := "left".data) : Except (List Char) (List Char) :=
  match ops.svgPng (fallbackSvg position) with
  | .ok img => .ok (dataUrlHead ++ ops.toBase64 img)
  | .error e => .error e

/-- Model of NowPlayingRenderer.render (lines 72-166): the pipeline under a
catch-all that redirects any failure to createFallback. -/
def render {Img : Type} (ops : SharpOps Img) (trackInfo : TrackInfo)
    (position : List Char := "left".data) : Except (List Char) (List Char) :=
  match renderPipeline ops trackInfo position with
  | .ok s => .ok s
  | .error _ => createFallback ops position

/-- The dark artwork svg of createBlank (lines 230-237). -/
def darkArtSvg : List Char :=
  "\n      <svg width=\"100\" height=\"100\" xmlns=\"http://www.w3.org/2000/svg\">\n        <rect width=\"100\" height=\"100\" fill=\"#1a1a1a\"/>\n        <!-- Pause icon overlay -->\n        <rect x=\"35\" y=\"35\" width=\"10\" height=\"30\" fill=\"white\" opacity=\"0.6\"/>\n        <rect x=\"55\" y=\"35\" width=\"10\" height=\"30\" fill=\"white\" opacity=\"0.6\"/>\n      </svg>\n      ".data

/-- The idle text-and-empty-bar svg of createBlank (lines 252-263). -/
def blankTextSvg : List Char :=
  "\n      <svg width=\"400\" height=\"100\" xmlns=\"http://www.w3.org/2000/svg\">\n        <style>\n          .title \x7b font-family: Arial, sans-serif; font-size: 20px; font-weight: normal; fill: white; \x7d\n          .artist \x7b font-family: Arial, sans-serif; font-size: 16px; fill: #B3B3B3; \x7d\n        </style>\n        <text x=\"".data
    ++ ts textX
    ++ "\" y=\"27\" class=\"title\">No track playing</text>\n        <text x=\"".data
    ++ ts textX
    ++ "\" y=\"55\" class=\"artist\">Start playing music</text>\n        <!-- Empty progress bar background -->\n        <rect x=\"".data
    ++ ts textX
    ++ "\" y=\"75\" width=\"".data
    ++ ts barWidth
    ++ "\" height=\"5\" rx=\"1\" fill=\"#404040\"/>\n      </svg>\n      ".data

/-- The body of the try of createBlank (lines 226-297). -/
def blankPipeline {Img : Type} (ops : SharpOps Img) (position : List Char) :
    Except (List Char) (List Char) := do
  let layers : List (Layer Img) := [⟨.buf darkArtSvg, 0, 0⟩, ⟨.buf blankTextSvg, 0, 0⟩]
  let fullCanvas ← ops.compositePng fullWidth lcdHeight layers
  let croppedImage ← ops.extractPng fullCanvas (cropX position) 0 dialWidth lcdHeight
  pure (dataUrlHead ++ ops.toBase64 croppedImage)

/-- The plain-black svg of the catch of createBlank (lines 301-305). -/
def blankFallbackSvg : List Char :=
  "\n      <svg width=\"200\" height=\"100\" xmlns=\"http://www.w3.org/2000/svg\">\n        <rect width=\"200\" height=\"100\" fill=\"black\"/>\n      </svg>\n      ".data

/-- Model of NowPlayingRenderer.createBlank (lines 225-310): the idle
pipeline under a catch that performs one more unguarded svg encode. -/
def createBlank {Img : Type} (ops : SharpOps Img)
    (position : List Char := "left".data) : Except (List Char) (List Char) :=
  match blankPipeline ops position with
  | .ok s => .ok s
  | .error _ =>
    match ops.svgPng blankFallbackSvg with
    | .ok img => .ok (dataUrlHead ++ ops.toBase64 img)
    | .error e => .error e

end NowPlayingRenderer

/-! ## Concrete oracle instances used as witnesses -/

/-- A free image value recording which sharp operations produced it. -/
inductive FreeImg : Type where
  | resized (b : List Char)
  | composited (w h : ℤ) (layers : List (Layer FreeImg))
  | extracted (i : FreeImg) (l t w h : ℤ)
  | svg (s : List Char)

/-- The always-succeeding oracle: every operation returns a free image. -/
def freeOps : SharpOps FreeImg where
  resizeArt := fun b => .ok (.resized b)
  compositePng := fun w h l => .ok (.composited w h l)
  extractPng := fun i a b c d => .ok (.extracted i a b c d)
  svgPng := fun s => .ok (.svg s)
  toBase64 := fun _ => "IMG".data

/-- The always-failing oracle. -/
def failOps : SharpOps Unit where
  resizeArt := fun _ => .error "boom".data
  compositePng := fun _ _ _ => .error "boom".data
  extractPng := fun _ _ _ _ _ => .error "boom".data
  svgPng := fun _ => .error "boom".data
  toBase64 := fun _ => []

/-- An oracle whose art resize rejects every buffer (corrupt artwork) while
the rest of the raster operations succeed. -/
def badArtOps : SharpOps FreeImg :=
  { freeOps with resizeArt := fun _ => .error "unsupported image format".data }

/-- A minimal empty snapshot. -/
def emptyTrack : TrackInfo :=
  ⟨none, .undef, none, none, none, none⟩

/-- A snapshot carrying a data-URL thumbnail whose payload will be rejected
by badArtOps. -/
def garbageArtTrack : TrackInfo :=
  ⟨some "Midnight City".data, .arr ["M83".data], none,
    some "data:image/png;base64,NOTANIMAGE".data, some 244, some 122⟩

/-! ## Theorems -/

open NowPlayingRenderer

/-- The two position strings differ. -/
theorem right_ne_left : "right".data ≠ "left".data := by decide

/-- C5: for every input string and character budget of at least the ellipsis
length (the budgets the source uses are the fixed constants 28, 32 and 45), a
string longer than the budget is emitted as its first budget-minus-three
characters followed by the ellipsis, so the emitted length never exceeds the
budget and the emitted string ends with the ellipsis; a string within the
budget is emitted unchanged. -/
theorem C5_truncation (s : List Char) (B : Nat) (hB : 3 ≤ B) :
    (B < s.length →
      truncate s B = s.take (B - 3) ++ "...".data ∧
      (truncate s B).length ≤ B ∧
      "...".data <:+ truncate s B) ∧
    (s.length ≤ B → truncate s B = s) := by
  constructor
  · intro h
    have ht : truncate s B = s.take (B - 3) ++ "...".data := by
      show (if B < s.length then s.take (B - 3) ++ "...".data else s) = _
      exact if_pos h
    refine ⟨ht, ?_, ?_⟩
    · rw [ht, List.length_append, List.length_take]
      have h3 : ("...".data).length = 3 := rfl
      rw [h3]
      omega
    · rw [ht]
      exact List.suffix_append _ _
  · intro h
    show (if B < s.length then s.take (B - 3) ++ "...".data else s) = s
    exact if_neg (by omega)

/-- Witness for C5 at a 30-character string and the title budget 28. -/
theorem C5_truncation_witness :
    truncate "abcdefghijklmnopqrstuvwxyz0123".data 28
      = "abcdefghijklmnopqrstuvwxyz0123".data.take (28 - 3) ++ "...".data :=
  ((C5_truncation "abcdefghijklmnopqrstuvwxyz0123".data 28 (by decide)).1
    (by decide)).1

/-- C3 counterexample: an empty artist array is joined to the empty string,
not replaced by the Unknown Artist default the claim states. -/
theorem C3_counterexample :
    artistText (ArtistField.arr []) = [] ∧
    artistText (ArtistField.arr []) ≠ "Unknown Artist".data :=
  ⟨rfl, by decide⟩

/-- C3 (amended): the artist array is joined with comma-space even when it is
empty (yielding empty text, not the default); only an absent artist value or
an empty artist string yields Unknown Artist; an absent or empty title yields
Unknown Track. -/
theorem C3_amended (l : List (List Char)) (s : List Char) :
    artistText (.arr l) = List.intercalate ", ".data l ∧
    artistText (.arr []) = [] ∧
    artistText .undef = "Unknown Artist".data ∧
    artistText (.str []) = "Unknown Artist".data ∧
    (s ≠ [] → artistText (.str s) = s) ∧
    titleText none = "Unknown Track".data ∧
    titleText (some []) = "Unknown Track".data ∧
    (s ≠ [] → titleText (some s) = s) := by
  refine ⟨rfl, rfl, rfl, rfl, fun h => ?_, rfl, rfl, fun h => ?_⟩
  · show (if s = [] then _ else s) = s
    exact if_neg h
  · show (if s = [] then _ else s) = s
    exact if_neg h

/-- Witness for C3 at a concrete nonempty artist string and title. -/
theorem C3_amended_witness :
    artistText (.str "M83".data) = "M83".data ∧
    titleText (some "Midnight City".data) = "Midnight City".data :=
  ⟨(C3_amended [] "M83".data).2.2.2.2.1 (by decide),
    (C3_amended [] "Midnight City".data).2.2.2.2.2.2.2 (by decide)⟩

/-- C1 counterexample: when the raster oracle fails everywhere, the fallback
encode inside createFallback fails as well and render propagates the failure,
so render does not always return a valid encoded image. -/
theorem C1_counterexample :
    render failOps emptyTrack "left".data = Except.error "boom".data := rfl

/-- C1 (amended): any failure of the render pipeline is caught and redirected
to createFallback for the same position, and render returns without failure
whenever the single unguarded raster encode inside createFallback succeeds;
createFallback itself, however, has no handler, so its raster failure is the
one failure render can propagate. -/
theorem C1_amended {Img : Type} (ops : SharpOps Img) (t : TrackInfo) (p : List Char) :
    ((renderPipeline ops t p).isOk = false → render ops t p = createFallback ops p) ∧
    (∀ s, createFallback ops p = .ok s → (render ops t p).isOk = true) := by
  constructor
  · intro h
    cases hr : renderPipeline ops t p with
    | ok v => rw [hr] at h; simp [Except.isOk, Except.toBool] at h
    | error e => unfold render; rw [hr]
  · intro s hs
    cases hr : renderPipeline ops t p with
    | ok v => unfold render; rw [hr]; rfl
    | error e =>
      unfold render
      rw [hr]
      show (createFallback ops p).isOk = true
      rw [hs]
      rfl

/-- Witness for C1 with the always-succeeding oracle. -/
theorem C1_amended_witness : (render freeOps emptyTrack "left".data).isOk = true :=
  (C1_amended freeOps emptyTrack "left".data).2
    (NowPlayingRenderer.dataUrlHead ++ "IMG".data) rfl

/-- C9: every position value other than the exact string left selects the
midpoint crop, making render, createBlank and createFallback agree with
their behaviour at the string right; and the omitted position argument
defaults to left in all three entry points. -/
theorem C9_position {Img : Type} (ops : SharpOps Img) (t : TrackInfo)
    (p : List Char) (hp : p ≠ "left".data) :
    render ops t p = render ops t "right".data ∧
    createBlank ops p = createBlank ops "right".data ∧
    createFallback ops p = createFallback ops "right".data ∧
    render ops t = render ops t "left".data ∧
    createBlank ops = createBlank ops "left".data ∧
    createFallback ops = createFallback ops "left".data := by
  have hc : cropX p = cropX "right".data := by
    rw [cropX, cropX, if_neg hp, if_neg right_ne_left]
  have hf : fallbackSvg p = fallbackSvg "right".data := by
    rw [fallbackSvg, fallbackSvg, if_neg hp, if_neg right_ne_left,
      if_neg hp, if_neg right_ne_left]
  have hcf : createFallback ops p = createFallback ops "right".data := by
    unfold createFallback
    rw [hf]
  refine ⟨?_, ?_, hcf, rfl, rfl, rfl⟩
  · unfold render renderPipeline
    rw [hc, hcf]
  · unfold createBlank blankPipeline
    rw [hc]

/-- Witness for C9 at the concrete non-left position string center. -/
theorem C9_position_witness :
    render freeOps emptyTrack "center".data = render freeOps emptyTrack "right".data ∧
    createFallback freeOps "center".data = createFallback freeOps "right".data :=
  ⟨(C9_position freeOps emptyTrack "center".data (by decide)).1,
    (C9_position freeOps emptyTrack "center".data (by decide)).2.2.1⟩

/-- C6: when duration is absent or zero, createProgressBar emits the svg
holding only the background track; in every case the output decomposes
around the identical background-track rect element; and when the computed
fill width is not positive (in particular zero) the output equals the
with-progress svg with an empty fill slot, i.e. the fill element is omitted
entirely rather than emitted as a zero-width shape. -/
theorem C6_no_duration (d ct : Option ℚ) (W x y : ℤ) :
    (jsFalsy d → createProgressBar d ct W x y = onlyTrackSvg W x y) ∧
    (∃ a b, createProgressBar d ct W x y = a ++ bgRect W x y ++ b) ∧
    (∀ w, ¬ jsFalsy d → progressWidthOf d ct W = some w → w ≤ 0 →
      createProgressBar d ct W x y = withFillSvg none W x y) := by
  refine ⟨fun h => ?_, ?_, fun w hnf hw hle => ?_⟩
  · rw [createProgressBar, if_pos h]
  · by_cases h : jsFalsy d
    · refine ⟨"\n        <svg width=\"400\" height=\"100\" xmlns=\"http://www.w3.org/2000/svg\">\n          ".data,
        "\n        </svg>\n      ".data, ?_⟩
      rw [createProgressBar, if_pos h, onlyTrackSvg, List.append_assoc]
    · refine ⟨"\n      <svg width=\"400\" height=\"100\" xmlns=\"http://www.w3.org/2000/svg\">\n        ".data,
        "\n        ".data ++ fillSlot (progressWidthOf d ct W) x y
          ++ "\n      </svg>\n    ".data, ?_⟩
      rw [createProgressBar, if_neg h, withFillSvg]
      simp [List.append_assoc]
  · rw [createProgressBar, if_neg hnf, hw, withFillSvg, withFillSvg]
    have hs : fillSlot (some w) x y = fillSlot none x y := by
      rw [fillSlot, fillSlot, if_neg (by omega)]
    rw [hs]

/-- Witness for C6 at an absent duration and at a zero computed width. -/
theorem C6_no_duration_witness :
    createProgressBar none none 276 108 75 = onlyTrackSvg 276 108 75 ∧
    createProgressBar (some 1) (some 0) 276 108 75 = withFillSvg none 276 108 75 :=
  ⟨(C6_no_duration none none 276 108 75).1 (Or.inl rfl),
    (C6_no_duration (some 1) (some 0) 276 108 75).2.2 (jsRound (0 / 1 * 276))
      (by simp [jsFalsy]) rfl (by norm_num [jsRound])⟩

/-- C4: a corrupt or unsupported artwork buffer is swallowed by the inner
catch: it contributes no layer, never reaches the outer pipeline as an
exception, and the whole render equals the render of the same snapshot with
no artwork at all, whose artwork region is the static black canvas
background while text and progress bar are composed unchanged. -/
theorem C4_art_isolated {Img : Type} (ops : SharpOps Img) (t : TrackInfo)
    (p buf msg : List Char)
    (hx : extractBase64FromDataUrl t.thumbnail = .decoded buf)
    (hf : ops.resizeArt buf = .error msg) :
    artLayers ops t.thumbnail = [] ∧
    renderLayers ops t = [textLayer t, barLayer t] ∧
    render ops t p
      = render ops ⟨t.trackName, t.artist, t.album, none, t.duration, t.position⟩ p := by
  have hart : artLayers ops t.thumbnail = [] := by
    cases hthumb : t.thumbnail with
    | none => rfl
    | some s =>
      rw [hthumb] at hx
      have hs : s ≠ [] := by
        intro h
        rw [h] at hx
        simp [extractBase64FromDataUrl] at hx
      rw [artLayers, if_neg hs, hx]
      simp [hf]
  have hlayers : renderLayers ops t = [textLayer t, barLayer t] := by
    rw [renderLayers, hart, List.nil_append]
  refine ⟨hart, hlayers, ?_⟩
  unfold render renderPipeline
  rw [renderLayers, hart, renderLayers]
  rfl

/-- Witness for C4: badArtOps rejects the garbage payload of the data-URL
thumbnail yet the composite plan keeps text and bar. -/
theorem C4_art_isolated_witness :
    renderLayers badArtOps garbageArtTrack
      = [textLayer garbageArtTrack, barLayer garbageArtTrack] :=
  (C4_art_isolated badArtOps garbageArtTrack "left".data "NOTANIMAGE".data
    "unsupported image format".data (by decide) rfl).2.1

/-- C8: render composes one full-width canvas from the snapshot and crops
the requested half out of it: the left position takes the slice starting at
the canvas origin and the right position the complementary slice starting at
dialWidth, which is exactly the midpoint of the full canvas; both slices
have the same dialWidth-by-lcdHeight geometry, and the returned value is the
self-describing data URI head followed by the base64 payload of the encoded
slice. -/
theorem C8_half_slices {Img : Type} (ops : SharpOps Img) (t : TrackInfo) (c : Img)
    (hc : ops.compositePng fullWidth lcdHeight (renderLayers ops t) = .ok c) :
    (∀ i, ops.extractPng c 0 0 dialWidth lcdHeight = .ok i →
      render ops t "left".data = .ok (dataUrlHead ++ ops.toBase64 i)) ∧
    (∀ i, ops.extractPng c dialWidth 0 dialWidth lcdHeight = .ok i →
      render ops t "right".data = .ok (dataUrlHead ++ ops.toBase64 i)) ∧
    cropX "left".data = 0 ∧
    cropX "right".data = dialWidth ∧
    dialWidth + dialWidth = fullWidth := by
  refine ⟨fun i hi => ?_, fun i hi => ?_, rfl, ?_, by decide⟩
  · unfold render renderPipeline
    rw [hc]
    show (match ops.extractPng c (cropX "left".data) 0 dialWidth lcdHeight >>= _ with
      | Except.ok s => Except.ok s
      | Except.error _ => createFallback ops "left".data) = _
    rw [show cropX "left".data = 0 from rfl, hi]
    rfl
  · unfold render renderPipeline
    rw [hc]
    show (match ops.extractPng c (cropX "right".data) 0 dialWidth lcdHeight >>= _ with
      | Except.ok s => Except.ok s
      | Except.error _ => createFallback ops "right".data) = _
    rw [show cropX "right".data = dialWidth from by rw [cropX, if_neg right_ne_left], hi]
    rfl
  · rw [cropX, if_neg right_ne_left]

/-- Witness for C8 with the always-succeeding oracle on the empty snapshot. -/
theorem C8_half_slices_witness :
    render freeOps emptyTrack "left".data
      = .ok (dataUrlHead ++ freeOps.toBase64
          (.extracted (.composited fullWidth lcdHeight (renderLayers freeOps emptyTrack))
            0 0 dialWidth lcdHeight)) ∧
    render freeOps emptyTrack "right".data
      = .ok (dataUrlHead ++ freeOps.toBase64
          (.extracted (.composited fullWidth lcdHeight (renderLayers freeOps emptyTrack))
            dialWidth 0 dialWidth lcdHeight)) :=
  ⟨(C8_half_slices freeOps emptyTrack _ rfl).1 _ rfl,
    (C8_half_slices freeOps emptyTrack _ rfl).2.1 _ rfl⟩

/-- Follows the claim wording, for comparison with the source formula: the
fill width with the position-to-duration ratio clamped to the unit interval
before scaling by the bar width. -/
def specClampedFillWidth (duration position : ℚ) (barWidth : ℤ) : ℤ :=
  jsRound ((barWidth : ℚ) * max 0 (min (position / duration) 1))

/-- C2 counterexample: at duration 1, position 2 and bar width 10 the source
computes a fill width of 20, while the claimed clamped formula yields 10:
the source applies no clamp. -/
theorem C2_counterexample :
    progressWidthVal 1 2 10 = 20 ∧ specClampedFillWidth 1 2 10 = 10 ∧
    (20 : ℤ) ≠ 10 := by
  refine ⟨?_, ?_, by decide⟩
  · rw [progressWidthVal]
    norm_num [jsRound]
  · rw [specClampedFillWidth]
    norm_num [jsRound]

/-- C2 (amended): the fill width is round(barWidth times position over
duration) with no clamping; restricted to positions between zero and the
duration it coincides with the claimed clamped formula, and for positive
duration and nonnegative bar width it is non-decreasing in the position,
equals zero at position zero and equals the bar width at the full
duration. -/
theorem C2_amended (D p q : ℚ) (W : ℤ) (hD : 0 < D) (hW : 0 ≤ W) :
    (0 ≤ p → p ≤ D → progressWidthVal D p W = specClampedFillWidth D p W) ∧
    (p ≤ q → progressWidthVal D p W ≤ progressWidthVal D q W) ∧
    progressWidthVal D 0 W = 0 ∧
    progressWidthVal D D W = W := by
  have hWQ : (0 : ℚ) ≤ (W : ℚ) := by exact_mod_cast hW
  refine ⟨fun hp hpD => ?_, fun hpq => ?_, ?_, ?_⟩
  · rw [progressWidthVal, specClampedFillWidth]
    have h1 : min (p / D) 1 = p / D := min_eq_left ((div_le_one hD).mpr hpD)
    have h2 : max 0 (p / D) = p / D := max_eq_right (div_nonneg hp hD.le)
    rw [h1, h2, mul_comm]
  · rw [progressWidthVal, progressWidthVal, jsRound, jsRound]
    apply Int.floor_mono
    have : p / D * (W : ℚ) ≤ q / D * (W : ℚ) := by
      apply mul_le_mul_of_nonneg_right _ hWQ
      exact div_le_div_of_nonneg_right hpq hD.le
    linarith
  · rw [progressWidthVal, jsRound, zero_div, zero_mul, zero_add]
    rw [show ((1 : ℚ) / 2) = (2 : ℚ)⁻¹ from one_div 2]
    norm_num
  · rw [progressWidthVal, jsRound, div_self hD.ne.symm, one_mul, add_comm]
    rw [Int.floor_add_int]
    norm_num

/-- Witness for C2 at duration 2, positions 0, 1 and 2, bar width 10. -/
theorem C2_amended_witness :
    progressWidthVal 2 1 10 = specClampedFillWidth 2 1 10 ∧
    progressWidthVal 2 0 10 ≤ progressWidthVal 2 1 10 ∧
    progressWidthVal 2 0 10 = 0 ∧
    progressWidthVal 2 2 10 = 10 :=
  ⟨(C2_amended 2 1 1 10 (by decide) (by decide)).1 (by decide) (by decide),
    (C2_amended 2 0 1 10 (by decide) (by decide)).2.1 (by decide),
    (C2_amended 2 0 1 10 (by decide) (by decide)).2.2.1,
    (C2_amended 2 0 1 10 (by decide) (by decide)).2.2.2⟩

/-! ## Lemmas on splitOnComma for C10 -/

/-- splitOnComma never returns the empty list. -/
theorem splitOnComma_ne_nil (s : List Char) : splitOnComma s ≠ [] := by
  cases s with
  | nil => simp [splitOnComma]
  | cons c rest =>
    rw [splitOnComma]
    by_cases h : c = ','
    · simp [h]
    · rw [if_neg h]
      cases splitOnComma rest <;> simp

/-- The first segment of splitOnComma is the longest comma-free head. -/
theorem splitOnComma_head (s : List Char) :
    (splitOnComma s).head? = some (s.takeWhile (fun c => !(c = ','))) := by
  induction s with
  | nil => rfl
  | cons c rest ih =>
    rw [splitOnComma]
    by_cases h : c = ','
    · subst h
      simp [List.takeWhile]
    · rw [if_neg h]
      cases hr : splitOnComma rest with
      | nil => exact absurd hr (splitOnComma_ne_nil rest)
      | cons hd tl =>
        rw [hr] at ih
        simp only [List.head?] at ih
        simp only [List.head?, List.takeWhile, Option.some.injEq] at ih ⊢
        simp [h, ih]

/-- Index one of splitOnComma, when a comma occurs, is the comma-free block
that follows the first comma. -/
theorem splitOnComma_get1 (s : List Char) (h : ',' ∈ s) :
    (splitOnComma s)[1]? =
      some (((s.dropWhile (fun c => !(c = ','))).drop 1).takeWhile (fun c => !(c = ','))) := by
  induction s with
  | nil => cases h
  | cons c rest ih =>
    by_cases hc : c = ','
    · subst hc
      rw [splitOnComma, if_pos rfl]
      have hhead := splitOnComma_head rest
      have hd : (([] :: splitOnComma rest)[1]?) = (splitOnComma rest).head? := by
        cases hsr : splitOnComma rest with
        | nil => exact absurd hsr (splitOnComma_ne_nil rest)
        | cons a b => simp
      rw [hd, hhead]
      simp [List.dropWhile]
    · have hrest : ',' ∈ rest := by
        cases h with
        | head => exact absurd rfl hc
        | tail _ hm => exact hm
      rw [splitOnComma, if_neg hc]
      cases hr : splitOnComma rest with
      | nil => exact absurd hr (splitOnComma_ne_nil rest)
      | cons hd tl =>
        have := ih hrest
        rw [hr] at this
        simp only [List.getElem?_cons_succ] at this ⊢
        have hdw : List.dropWhile (fun x => !decide (x = ',')) (c :: rest)
            = List.dropWhile (fun x => !decide (x = ',')) rest := by
          simp [List.dropWhile_cons, hc]
        rw [hdw]
        exact this

/-- A comma-free string splits into a single segment. -/
theorem splitOnComma_no_comma (s : List Char) (h : ',' ∉ s) : splitOnComma s = [s] := by
  induction s with
  | nil => rfl
  | cons c rest ih =>
    have hc : ¬c = ',' := fun hcc => h (hcc ▸ List.mem_cons_self c rest)
    have hrest : ',' ∉ rest := fun hm => h (List.mem_cons_of_mem c hm)
    rw [splitOnComma, if_neg hc, ih hrest]

/-- Follows the claim wording, for comparison with the source indexing: the
entire remainder of the string after the first comma. -/
def specAfterFirstComma (s : List Char) : List Char :=
  (s.dropWhile (fun c => !(c = ','))).drop 1

/-- C10 counterexample: on a data URL whose payload itself contains a comma,
the source decodes only the block between the first and second comma, not
the whole portion after the first comma as the claim states. -/
theorem C10_counterexample :
    extractBase64FromDataUrl (some "data:a,BB,CC".data) = .decoded "BB".data ∧
    specAfterFirstComma "data:a,BB,CC".data = "BB,CC".data ∧
    ("BB".data : List Char) ≠ "BB,CC".data := by
  refine ⟨by decide, by decide, by decide⟩

/-- C10 (amended): the extractor returns null exactly on a null or empty
input; a non-empty input with the data marker is split on every comma and
the block between the first and the second comma is base64-decoded (so text
after a second comma is dropped), with a comma-free data-marked input
throwing instead of returning null; any other non-empty input is decoded
whole as raw base64 text. -/
theorem C10_amended (s : List Char) :
    extractBase64FromDataUrl none = .nullRes ∧
    extractBase64FromDataUrl (some []) = .nullRes ∧
    (s ≠ [] → extractBase64FromDataUrl (some s) ≠ .nullRes) ∧
    (s ≠ [] → "data:".data <+: s → ',' ∉ s →
      extractBase64FromDataUrl (some s) = .thrown) ∧
    (s ≠ [] → "data:".data <+: s → ',' ∈ s →
      extractBase64FromDataUrl (some s)
        = .decoded (((s.dropWhile (fun c => !(c = ','))).drop 1).takeWhile
            (fun c => !(c = ',')))) ∧
    (s ≠ [] → ¬("data:".data <+: s) → extractBase64FromDataUrl (some s) = .decoded s) := by
  refine ⟨rfl, rfl, fun h => ?_, fun h hpre hnc => ?_, fun h hpre hcm => ?_,
    fun h hnp => ?_⟩
  · simp only [extractBase64FromDataUrl]
    rw [if_neg h]
    by_cases hp : "data:".data.isPrefixOf s
    · rw [if_pos hp]
      cases h1 : (splitOnComma s)[1]? <;> simp
    · rw [if_neg hp]
      simp
  · have hp : "data:".data.isPrefixOf s := List.isPrefixOf_iff_prefix.mpr hpre
    simp only [extractBase64FromDataUrl]
    rw [if_neg h, if_pos hp, splitOnComma_no_comma s hnc]
    rfl
  · have hp : "data:".data.isPrefixOf s := List.isPrefixOf_iff_prefix.mpr hpre
    simp only [extractBase64FromDataUrl]
    rw [if_neg h, if_pos hp, splitOnComma_get1 s hcm]
  · have hp : ¬("data:".data.isPrefixOf s = true) :=
      fun hh => hnp (List.isPrefixOf_iff_prefix.mp hh)
    simp only [extractBase64FromDataUrl]
    rw [if_neg h, if_neg hp]

/-- Witness for C10 on a raw base64 input with no data marker. -/
theorem C10_amended_witness :
    extractBase64FromDataUrl (some "abc".data) = .decoded "abc".data :=
  (C10_amended "abc".data).2.2.2.2.2 (by decide) (by decide)

/-! ## Lemmas on escapeXml for C7 -/

/-- The five replacement passes of escapeXml without the falsy guard. -/
def escapePasses (s : List Char) : List Char :=
  replaceAllChar squote "&#39;".data
    (replaceAllChar '"' "&quot;".data
      (replaceAllChar '>' "&gt;".data
        (replaceAllChar '<' "&lt;".data
          (replaceAllChar '&' "&amp;".data s))))

/-- The guard of escapeXml is immaterial: the passes send empty to empty. -/
theorem escapeXml_eq_passes (s : List Char) : escapeXml s = escapePasses s := by
  rw [escapeXml]
  by_cases h : s = []
  · rw [if_pos h, h]
    rfl
  · rw [if_neg h]
    rfl

/-- Each replacement pass distributes over append. -/
theorem replaceAllChar_append (p : Char) (r a b : List Char) :
    replaceAllChar p r (a ++ b) = replaceAllChar p r a ++ replaceAllChar p r b := by
  simp [replaceAllChar]

/-- The composed passes distribute over append. -/
theorem escapePasses_append (a b : List Char) :
    escapePasses (a ++ b) = escapePasses a ++ escapePasses b := by
  simp [escapePasses, replaceAllChar_append]

/-- On a single character the composed passes compute the escaping table:
the ampersand pass runs first, so the ampersands introduced by the entity
replacements are never reprocessed. -/
theorem escapePasses_single (c : Char) : escapePasses [c] = escapeChar c := by
  by_cases h1 : c = '&'
  · subst h1; decide
  · by_cases h2 : c = '<'
    · subst h2; decide
    · by_cases h3 : c = '>'
      · subst h3; decide
      · by_cases h4 : c = '"'
        · subst h4; decide
        · by_cases h5 : c = squote
          · subst h5; decide
          · simp [escapePasses, replaceAllChar, escapeChar, h1, h2, h3, h4, h5]

/-- escapeXml is the flat map of the per-character escaping table. -/
theorem escapeXml_flatMap (s : List Char) : escapeXml s = s.flatMap escapeChar := by
  rw [escapeXml_eq_passes]
  induction s with
  | nil => rfl
  | cons c cs ih =>
    rw [show (c :: cs) = [c] ++ cs from rfl, escapePasses_append, escapePasses_single,
      ih]
    exact (List.flatMap_cons ..).symm

/-- Reduction of the checker across the ampersand entity. -/
theorem checkEscaped_amp (rest : List Char) :
    checkEscaped ('&' :: 'a' :: 'm' :: 'p' :: ';' :: rest) = checkEscaped rest := by
  conv_lhs => unfold checkEscaped
  simp [List.isPrefixOf, squote]

/-- Reduction of the checker across the less-than entity. -/
theorem checkEscaped_lt (rest : List Char) :
    checkEscaped ('&' :: 'l' :: 't' :: ';' :: rest) = checkEscaped rest := by
  conv_lhs => unfold checkEscaped
  simp [List.isPrefixOf, squote]

/-- Reduction of the checker across the greater-than entity. -/
theorem checkEscaped_gt (rest : List Char) :
    checkEscaped ('&' :: 'g' :: 't' :: ';' :: rest) = checkEscaped rest := by
  conv_lhs => unfold checkEscaped
  simp [List.isPrefixOf, squote]

/-- Reduction of the checker across the double-quote entity. -/
theorem checkEscaped_quot (rest : List Char) :
    checkEscaped ('&' :: 'q' :: 'u' :: 'o' :: 't' :: ';' :: rest) = checkEscaped rest := by
  conv_lhs => unfold checkEscaped
  simp [List.isPrefixOf, squote]

/-- Reduction of the checker across the numeric apostrophe entity. -/
theorem checkEscaped_num39 (rest : List Char) :
    checkEscaped ('&' :: '#' :: '3' :: '9' :: ';' :: rest) = checkEscaped rest := by
  conv_lhs => unfold checkEscaped
  simp [List.isPrefixOf, squote]

/-- Reduction of the checker across an ordinary character. -/
theorem checkEscaped_other (c : Char) (rest : List Char) (h1 : ¬c = '<')
    (h2 : ¬c = '>') (h3 : ¬c = '"') (h4 : ¬c = squote) (h5 : ¬c = '&') :
    checkEscaped (c :: rest) = checkEscaped rest := by
  conv_lhs => unfold checkEscaped
  simp [h1, h2, h3, h4, h5]

/-- No expansion of the escaping table contains a raw angle bracket, double
quote or apostrophe. -/
theorem escapeChar_not_raw (c x : Char) (hx : x ∈ escapeChar c) :
    ¬x = '<' ∧ ¬x = '>' ∧ ¬x = '"' ∧ ¬x = squote := by
  by_cases h1 : c = '&'
  · subst h1
    rw [show escapeChar '&' = ['&', 'a', 'm', 'p', ';'] from by decide] at hx
    fin_cases hx <;> decide
  · by_cases h2 : c = '<'
    · subst h2
      rw [show escapeChar '<' = ['&', 'l', 't', ';'] from by decide] at hx
      fin_cases hx <;> decide
    · by_cases h3 : c = '>'
      · subst h3
        rw [show escapeChar '>' = ['&', 'g', 't', ';'] from by decide] at hx
        fin_cases hx <;> decide
      · by_cases h4 : c = '"'
        · subst h4
          rw [show escapeChar '"' = ['&', 'q', 'u', 'o', 't', ';'] from by decide] at hx
          fin_cases hx <;> decide
        · by_cases h5 : c = squote
          · subst h5
            rw [show escapeChar squote = ['&', '#', '3', '9', ';'] from by decide] at hx
            fin_cases hx <;> decide
          · simp only [escapeChar, if_neg h1, if_neg h2, if_neg h3, if_neg h4,
              if_neg h5, List.mem_singleton] at hx
            subst hx
            exact ⟨h2, h3, h4, h5⟩

/-- The flat map of the escaping table passes the checker. -/
theorem checkEscaped_flatMap (s : List Char) :
    checkEscaped (s.flatMap escapeChar) = true := by
  induction s with
  | nil =>
    rw [List.flatMap_nil]
    conv_lhs => unfold checkEscaped
  | cons c cs ih =>
    rw [List.flatMap_cons]
    by_cases h1 : c = '&'
    · subst h1
      rw [show escapeChar '&' = ['&', 'a', 'm', 'p', ';'] from rfl]
      rw [show (['&', 'a', 'm', 'p', ';'] : List Char) ++ cs.flatMap escapeChar
        = '&' :: 'a' :: 'm' :: 'p' :: ';' :: cs.flatMap escapeChar from rfl]
      rw [checkEscaped_amp]
      exact ih
    · by_cases h2 : c = '<'
      · subst h2
        rw [show escapeChar '<' = ['&', 'l', 't', ';'] from by decide]
        rw [show (['&', 'l', 't', ';'] : List Char) ++ cs.flatMap escapeChar
          = '&' :: 'l' :: 't' :: ';' :: cs.flatMap escapeChar from rfl]
        rw [checkEscaped_lt]
        exact ih
      · by_cases h3 : c = '>'
        · subst h3
          rw [show escapeChar '>' = ['&', 'g', 't', ';'] from by decide]
          rw [show (['&', 'g', 't', ';'] : List Char) ++ cs.flatMap escapeChar
            = '&' :: 'g' :: 't' :: ';' :: cs.flatMap escapeChar from rfl]
          rw [checkEscaped_gt]
          exact ih
        · by_cases h4 : c = '"'
          · subst h4
            rw [show escapeChar '"' = ['&', 'q', 'u', 'o', 't', ';'] from by decide]
            rw [show (['&', 'q', 'u', 'o', 't', ';'] : List Char) ++ cs.flatMap escapeChar
              = '&' :: 'q' :: 'u' :: 'o' :: 't' :: ';' :: cs.flatMap escapeChar from rfl]
            rw [checkEscaped_quot]
            exact ih
          · by_cases h5 : c = squote
            · subst h5
              rw [show escapeChar squote = ['&', '#', '3', '9', ';'] from by decide]
              rw [show (['&', '#', '3', '9', ';'] : List Char) ++ cs.flatMap escapeChar
                = '&' :: '#' :: '3' :: '9' :: ';' :: cs.flatMap escapeChar from rfl]
              rw [checkEscaped_num39]
              exact ih
            · rw [show escapeChar c = [c] from by
                simp [escapeChar, h1, h2, h3, h4, h5]]
              rw [List.singleton_append]
              rw [checkEscaped_other c _ h2 h3 h4 h5 h1]
              exact ih

/-- C7: escapeXml output never contains a raw angle bracket, double quote or
apostrophe, and every ampersand in it starts one of the five escape
entities, so metadata containing the special characters reaches the markup
only in escaped form; buildTextSvg embeds exactly the escaped truncated
title and artist between the fixed markup blocks. -/
theorem C7_escaping (s : List Char) :
    '<' ∉ escapeXml s ∧ '>' ∉ escapeXml s ∧ '"' ∉ escapeXml s ∧
    squote ∉ escapeXml s ∧
    checkEscaped (escapeXml s) = true ∧
    (∀ (t : TrackInfo) (W : ℤ), buildTextSvg t W
      = textSvgHead ++ escapeXml (truncate (titleText t.trackName) 28)
        ++ textSvgMid ++ escapeXml (truncate (artistText t.artist) 32)
        ++ textSvgTail) := by
  have he := escapeXml_flatMap s
  have hraw : ∀ x : Char, (x = '<' ∨ x = '>' ∨ x = '"' ∨ x = squote) →
      x ∉ escapeXml s := by
    intro x hx hmem
    rw [he, List.mem_flatMap] at hmem
    obtain ⟨c, _, hxc⟩ := hmem
    have hn := escapeChar_not_raw c x hxc
    rcases hx with rfl | rfl | rfl | rfl
    · exact hn.1 rfl
    · exact hn.2.1 rfl
    · exact hn.2.2.1 rfl
    · exact hn.2.2.2 rfl
  refine ⟨hraw '<' (Or.inl rfl), hraw '>' (Or.inr (Or.inl rfl)),
    hraw '"' (Or.inr (Or.inr (Or.inl rfl))),
    hraw squote (Or.inr (Or.inr (Or.inr rfl))), ?_, fun t W => rfl⟩
  rw [he]
  exact checkEscaped_flatMap s
